import Mathlib

/-!
Shallow embedding of `src/main.py` (HobOps/gcp-enumerator), a sequential
script that enumerates GCP resources across projects and prints
comma-joined report rows.

Modelling conventions:
* Python/JSON values are modelled by `PyVal`; raised Python exceptions by
  `PyErr` (we distinguish `KeyError`, `IndexError` and `TypeError`, since
  `get_external_ip` catches only `KeyError`; attribute errors and other
  non-key, non-index failures are collapsed into `typeError`).
* Remote API responses are supplied by an `Env` record: each listing call
  of the script becomes a field of `Env`, so the script's functions are
  deterministic functions of the environment.
* `print` output is collected into a `List String`; a function that can
  raise returns the lines printed before the exception together with
  `Option PyErr` (`none` = normal completion).
* Iterating a truthy non-list value (which in Python would iterate dict
  keys or string characters) is modelled as a `typeError`; the report
  code only ever iterates JSON arrays in well-formed runs.
-/

/-- The Python exceptions relevant to this script. -/
inductive PyErr where
  | keyError (k : String)
  | indexError
  | typeError
deriving DecidableEq, Repr

/-- A Python/JSON value as handled by the script. -/
inductive PyVal where
  | null
  | bool (b : Bool)
  | int (n : Int)
  | str (s : String)
  | list (l : List PyVal)
  | dict (kvs : List (String × PyVal))

/-- Association-list lookup used for dictionary access (first binding wins,
as in a Python dict built from distinct keys). -/
def lookupKey (k : String) : List (String × PyVal) → Option PyVal
  | [] => none
  | (k', v) :: kvs => if k' = k then some v else lookupKey k kvs

/-- Python subscription `v[k]` with a string key: a `dict` yields the value
or raises `KeyError`; any other value raises `TypeError`. -/
def dictGet (v : PyVal) (k : String) : Except PyErr PyVal :=
  match v with
  | .dict kvs =>
    match lookupKey k kvs with
    | some w => .ok w
    | none => .error (.keyError k)
  | _ => .error .typeError

/-- Python subscription `v[i]` with a non-negative integer: a `list` yields
the element or raises `IndexError`; a string-keyed `dict` raises `KeyError`
(the integer key is absent); any other value raises `TypeError`. -/
def pyIndex (v : PyVal) (i : Nat) : Except PyErr PyVal :=
  match v with
  | .list l =>
    match l.get? i with
    | some w => .ok w
    | none => .error .indexError
  | .dict _ => .error (.keyError (toString i))
  | _ => .error .typeError

/-- Extract a string field: `v[k]` followed by use as a `str` (joining a
non-string with `",".join` raises `TypeError`). -/
def getStr (v : PyVal) (k : String) : Except PyErr String := do
  match ← dictGet v k with
  | .str s => .ok s
  | _ => .error .typeError

/-- Require a value to be a `str` (as `",".join` does). -/
def asStr : PyVal → Except PyErr String
  | .str s => .ok s
  | _ => .error .typeError

/-- Python truthiness of a value. -/
def pyTruthy : PyVal → Bool
  | .null => false
  | .bool b => b
  | .int n => n != 0
  | .str s => s ≠ ""
  | .list l => !l.isEmpty
  | .dict kvs => !kvs.isEmpty

/-- Python membership test `k in v` for a string `k`: key lookup for a
dict, element equality for a list, substring test for a string, and
`TypeError` otherwise. -/
def pyContains (k : String) : PyVal → Except PyErr Bool
  | .dict kvs => .ok ((lookupKey k kvs).isSome)
  | .list l => .ok (l.any fun v => match v with | .str s => s = k | _ => false)
  | .str s => .ok (((s.splitOn k).length) > 1)
  | _ => .error .typeError

/-- `s.split('/')` at the character level (the source only ever splits on
the single character `'/'`): adjacent separators yield empty segments and
the result is never the empty list. -/
def splitSlash : List Char → List (List Char)
  | [] => [[]]
  | c :: cs =>
    match splitSlash cs with
    | [] => [[]]
    | seg :: rest => if c = '/' then [] :: seg :: rest else (c :: seg) :: rest

/-- `s.split('/')[-1]`: Python `str.split` on a non-empty separator never
returns an empty list, so the `[-1]` index always succeeds. -/
def lastSeg (s : String) : String :=
  String.mk ((splitSlash s.data).getLastD [])

/-- `get_external_ip`'s guarded expression
`instance["networkInterfaces"][0]["accessConfigs"][0]["natIP"]`. -/
def extPath (inst : PyVal) : Except PyErr PyVal := do
  let nis ← dictGet inst "networkInterfaces"
  let ni0 ← pyIndex nis 0
  let acs ← dictGet ni0 "accessConfigs"
  let ac0 ← pyIndex acs 0
  dictGet ac0 "natIP"

/-- `get_external_ip`: evaluates the nested path and catches `KeyError`
only, returning the sentinel `"none"`; any other exception propagates. -/
def get_external_ip (inst : PyVal) : Except PyErr PyVal :=
  match extPath inst with
  | .ok v => .ok v
  | .error (.keyError _) => .ok (.str "none")
  | .error e => .error e

/-- A Memorystore instance as returned by the typed `redis_v1` client:
only the attributes the report reads, each after the report's `str(...)`
coercion (which always succeeds). -/
structure RedisInstance where
  location_id : String
  display_name : String
  state : String
  redis_version : String
  host : String
  tier : String
  memory_size_gb : String

/-- The remote world the script talks to.  Each listing call of the script
reads the corresponding field; pagination (`list` / `list_next`) is
modelled as the finite list of successive response pages (the real client
returns at least one page, and `list_next` returns `None` after the last).
The Memorystore call may raise (modelled by `Except`); every other call is
assumed to transport successfully, returning its (possibly malformed)
body. -/
structure Env where
  projectPages : List PyVal
  zonePages : String → List PyVal
  regionPages : String → List PyVal
  instancesResult : String → String → PyVal
  disksResult : String → String → PyVal
  addressesResult : String → String → PyVal
  sqlResult : String → PyVal
  redisResult : String → Except PyErr (List RedisInstance)
  apiKeysBody : String → String → PyVal
  token : String

/-- `response.get('projects', [])` followed by `projects.extend(...)`:
an absent key contributes nothing, a list contributes its elements, and
extending by a non-iterable raises `TypeError` (iterable non-list values
are not modelled).  `.get` on a non-dict response raises (modelled as
`typeError`). -/
def responseProjects (r : PyVal) : Except PyErr (List PyVal) :=
  match r with
  | .dict kvs =>
    match lookupKey "projects" kvs with
    | none => .ok []
    | some (.list l) => .ok l
    | some _ => .error .typeError
  | _ => .error .typeError

/-- The `while request is not None` accumulation loop of `get_projects`. -/
def get_projects_loop (acc : List PyVal) : List PyVal → Except PyErr (List PyVal)
  | [] => .ok acc
  | r :: rs => do
    let ps ← responseProjects r
    get_projects_loop (acc ++ ps) rs

/-- `get_projects`: paginate through `projects().list`, extending the
accumulator with each page's `projects` entry. -/
def get_projects (pages : List PyVal) : Except PyErr (List PyVal) :=
  get_projects_loop [] pages

/-- `for zone in response['items']: zones.append(zone["name"])` for one
page (a non-string name is modelled as a `typeError`, as it would fail
either the later sort against strings or its use as a URL parameter). -/
def pageNames (items : List PyVal) : Except PyErr (List String) :=
  match items with
  | [] => .ok []
  | v :: vs => do
    let n ← getStr v "name"
    let ns ← pageNames vs
    .ok (n :: ns)

/-- Collect the names of all pages in order: each page's `response['items']`
must be present (else `KeyError`) and be an array. -/
def collectNames : List PyVal → Except PyErr (List String)
  | [] => .ok []
  | r :: rs => do
    let items ← dictGet r "items"
    match items with
    | .list l => do
      let ns ← pageNames l
      let rest ← collectNames rs
      .ok (ns ++ rest)
    | _ => .error .typeError

/-- Lexicographic comparison of character lists by code point, the order
Python's `<=` induces on strings. -/
def lexLe : List Char → List Char → Bool
  | [], _ => true
  | _ :: _, [] => false
  | a :: as, b :: bs =>
    if a < b then true
    else if b < a then false
    else lexLe as bs

/-- Python string comparison `a <= b` (code-point lexicographic). -/
def strLe (a b : String) : Bool := lexLe a.data b.data

/-- Insertion step of the sort modelling `list.sort()` on strings. -/
def pyInsert (a : String) : List String → List String
  | [] => [a]
  | b :: bs => if strLe a b then a :: b :: bs else b :: pyInsert a bs

/-- `zones.sort()` / `regions.sort()`: Python's sort on a list of strings.
On a total antisymmetric order the sorted permutation is unique, so this
insertion sort agrees extensionally with the library sort. -/
def pySort : List String → List String
  | [] => []
  | a :: as => pyInsert a (pySort as)

/-- `get_zones`: paginate `zones().list`, collect `zone["name"]`, then
`zones.sort()`. -/
def get_zones (env : Env) (project : String) : Except PyErr (List String) :=
  (collectNames (env.zonePages project)).map pySort

/-- `get_regions`: identical to `get_zones` over `regions().list`. -/
def get_regions (env : Env) (project : String) : Except PyErr (List String) :=
  (collectNames (env.regionPages project)).map pySort

/-- `result['items'] if 'items' in result else None`, shared shape of
`list_instances`, `list_disks`, `list_addresses`, `list_sql_instances`. -/
def itemsOrNone (result : PyVal) : Except PyErr (Option PyVal) := do
  if ← pyContains "items" result then
    let v ← dictGet result "items"
    .ok (some v)
  else
    .ok none

/-- `list_instances(service, project, zone)`. -/
def list_instances (env : Env) (project zone : String) : Except PyErr (Option PyVal) :=
  itemsOrNone (env.instancesResult project zone)

/-- `list_disks(service, project, zone)`. -/
def list_disks (env : Env) (project zone : String) : Except PyErr (Option PyVal) :=
  itemsOrNone (env.disksResult project zone)

/-- `list_addresses(service, project, region)`. -/
def list_addresses (env : Env) (project region : String) : Except PyErr (Option PyVal) :=
  itemsOrNone (env.addressesResult project region)

/-- `list_sql_instances(sql, project)`. -/
def list_sql_instances (env : Env) (project : String) : Except PyErr (Option PyVal) :=
  itemsOrNone (env.sqlResult project)

/-- `list_redis_instances`: the bare `except:` turns any exception from the
listing call into `None`. -/
def list_redis_instances (env : Env) (project : String) : Option (List RedisInstance) :=
  match env.redisResult project with
  | .ok l => some l
  | .error _ => none

/-- The instance row of `compute_instance_report` (fields evaluated left
to right, as in the Python list literal). -/
def instanceRow (item : PyVal) : Except PyErr String := do
  let zone ← getStr item "zone"
  let name ← getStr item "name"
  let status ← getStr item "status"
  let mt ← getStr item "machineType"
  let nis ← dictGet item "networkInterfaces"
  let ni0 ← pyIndex nis 0
  let nip ← getStr ni0 "networkIP"
  let ext ← get_external_ip item
  let extS ← asStr ext
  .ok (String.intercalate "," [lastSeg zone, name, status, lastSeg mt, nip, extS])

/-- Coerce every element of a JSON array to a `str` (what a string join
requires of its argument). -/
def asStrList : List PyVal → Except PyErr (List String)
  | [] => .ok []
  | v :: vs => do
    let s ← asStr v
    let ss ← asStrList vs
    .ok (s :: ss)

/-- `'|'.join(item["users"])`: every element must be a `str`. -/
def joinUsers (v : PyVal) : Except PyErr String :=
  match v with
  | .list l =>
    match asStrList l with
    | .ok ss => .ok (String.intercalate "|" ss)
    | .error e => .error e
  | _ => .error .typeError

/-- The disk row of `compute_instance_report`, including the lossy
`('|'.join(item["users"])).split('/')[-1]` users field. -/
def diskRow (item : PyVal) : Except PyErr String := do
  let zone ← getStr item "zone"
  let name ← getStr item "name"
  let status ← getStr item "status"
  let size ← getStr item "sizeGb"
  let users ← dictGet item "users"
  let us ← joinUsers users
  .ok (String.intercalate "," [lastSeg zone, name, status, size, lastSeg us])

/-- The address row of `compute_instance_report`, with the same lossy
users field as `diskRow`. -/
def addrRow (item : PyVal) : Except PyErr String := do
  let region ← getStr item "region"
  let name ← getStr item "name"
  let status ← getStr item "status"
  let addr ← getStr item "address"
  let tier ← getStr item "networkTier"
  let ty ← getStr item "addressType"
  let users ← dictGet item "users"
  let us ← joinUsers users
  .ok (String.intercalate "," [lastSeg region, name, status, addr, tier, ty, lastSeg us])

/-- The SQL row of `sql_instance_report`: note the unguarded index
accesses `item["ipAddresses"][0]` and `[1]`. -/
def sqlRow (item : PyVal) : Except PyErr String := do
  let region ← getStr item "region"
  let zone ← getStr item "gceZone"
  let name ← getStr item "name"
  let state ← getStr item "state"
  let ver ← getStr item "databaseVersion"
  let settings ← dictGet item "settings"
  let tier ← getStr settings "tier"
  let settings2 ← dictGet item "settings"
  let avail ← getStr settings2 "availabilityType"
  let ips ← dictGet item "ipAddresses"
  let ip0 ← pyIndex ips 0
  let a0 ← getStr ip0 "ipAddress"
  let ips2 ← dictGet item "ipAddresses"
  let ip1 ← pyIndex ips2 1
  let a1 ← getStr ip1 "ipAddress"
  .ok (String.intercalate "," [region, zone, name, state, ver, tier, avail, a0, a1])

/-- The API-key row of `api_keys_report`. -/
def keyRow (item : PyVal) : Except PyErr String := do
  let kid ← getStr item "keyId"
  let dn ← getStr item "displayName"
  let ck ← getStr item "currentKey"
  let ct ← getStr item "createTime"
  .ok (String.intercalate "," [kid, dn, ck, ct])

/-- `for item in items: print(row(item))` over a JSON array: the rows
printed before a possible exception, and the exception if one is raised. -/
def rowLoop (rowFn : PyVal → Except PyErr String) : List PyVal → List String × Option PyErr
  | [] => ([], none)
  | it :: its =>
    match rowFn it with
    | .error e => ([], some e)
    | .ok r =>
      let (rs, e) := rowLoop rowFn its
      (r :: rs, e)

/-- `if items: for item in items: ...` — `None` and falsy values print
nothing; a truthy non-array value cannot be iterated as the rows expect. -/
def forItems (rowFn : PyVal → Except PyErr String) (items : Option PyVal) :
    List String × Option PyErr :=
  match items with
  | none => ([], none)
  | some v =>
    if pyTruthy v then
      match v with
      | .list l => rowLoop rowFn l
      | _ => ([], some .typeError)
    else ([], none)

/-- One section of `compute_instance_report`: for each zone (or region),
list the resource and print its rows. -/
def sectionLoop (lister : String → Except PyErr (Option PyVal))
    (rowFn : PyVal → Except PyErr String) : List String → List String × Option PyErr
  | [] => ([], none)
  | z :: zs =>
    match lister z with
    | .error e => ([], some e)
    | .ok items =>
      match forItems rowFn items with
      | (rs, some e) => (rs, some e)
      | (rs, none) =>
        let (rs2, e2) := sectionLoop lister rowFn zs
        (rs ++ rs2, e2)

/-- `compute_instance_report`: banner, instances per zone, disks per zone
(zones re-enumerated), addresses per region. -/
def compute_instance_report (env : Env) (project : String) : List String × Option PyErr :=
  let hdr := ["==== Compute Engine ====", "-- Instances --"]
  match get_zones env project with
  | .error e => (hdr, some e)
  | .ok zones =>
    match sectionLoop (list_instances env project) instanceRow zones with
    | (r1, some e) => (hdr ++ r1, some e)
    | (r1, none) =>
      let out1 := hdr ++ r1 ++ ["-- Disks --"]
      match get_zones env project with
      | .error e => (out1, some e)
      | .ok zones2 =>
        match sectionLoop (list_disks env project) diskRow zones2 with
        | (r2, some e) => (out1 ++ r2, some e)
        | (r2, none) =>
          let out2 := out1 ++ r2 ++ ["-- Addresses --"]
          match get_regions env project with
          | .error e => (out2, some e)
          | .ok regions =>
            match sectionLoop (list_addresses env project) addrRow regions with
            | (r3, e3) => (out2 ++ r3, e3)

/-- `sql_instance_report`: banner, then `for item in items` with NO
truthiness guard — when `list_sql_instances` returns `None` the iteration
raises `TypeError`. -/
def sql_instance_report (env : Env) (project : String) : List String × Option PyErr :=
  let banner := "==== SQL Engine ===="
  match list_sql_instances env project with
  | .error e => ([banner], some e)
  | .ok none => ([banner], some .typeError)
  | .ok (some v) =>
    match v with
    | .list l =>
      let (rs, e) := rowLoop sqlRow l
      (banner :: rs, e)
    | _ => ([banner], some .typeError)

/-- The Memorystore row. -/
def redisRow (i : RedisInstance) : String :=
  String.intercalate "," [i.location_id, i.display_name, i.state, i.redis_version,
    i.host, i.tier, i.memory_size_gb]

/-- `redis_instance_report`: banner, then rows only when the (exception-
swallowing) listing returned a pager; the pager object is always truthy,
so its instances are iterated even when there are none. -/
def redis_instance_report (env : Env) (project : String) : List String × Option PyErr :=
  let banner := "==== Memorystore ===="
  match list_redis_instances env project with
  | none => ([banner], none)
  | some l => (banner :: l.map redisRow, none)

/-- `api_keys_report`: GET the key listing, suppress bodies containing an
`"error"` key, and otherwise print each record of `items["keys"]` when the
body is truthy. -/
def api_keys_report (env : Env) (accessToken project : String) : List String × Option PyErr :=
  let banner := "==== API Keys ===="
  let items := env.apiKeysBody accessToken project
  match pyContains "error" items with
  | .error e => ([banner], some e)
  | .ok true => ([banner], none)
  | .ok false =>
    if pyTruthy items then
      match dictGet items "keys" with
      | .error e => ([banner], some e)
      | .ok (.list l) =>
        let (rs, e) := rowLoop keyRow l
        (banner :: rs, e)
      | .ok _ => ([banner], some .typeError)
    else ([banner], none)

/-- The per-project body of `main`'s loop: project banner, then the four
reporters in order, stopping at the first uncaught exception. -/
def projectsLoop (env : Env) : List PyVal → List String × Option PyErr
  | [] => ([], none)
  | pr :: prs =>
    match getStr pr "projectId" with
    | .error e => ([], some e)
    | .ok pid =>
      let banner := "======================== " ++ pid
      match compute_instance_report env pid with
      | (o1, some e) => (banner :: o1, some e)
      | (o1, none) =>
        match sql_instance_report env pid with
        | (o2, some e) => (banner :: (o1 ++ o2), some e)
        | (o2, none) =>
          match redis_instance_report env pid with
          | (o3, some e) => (banner :: (o1 ++ o2 ++ o3), some e)
          | (o3, none) =>
            match api_keys_report env env.token pid with
            | (o4, some e) => (banner :: (o1 ++ o2 ++ o3 ++ o4), some e)
            | (o4, none) =>
              let (rest, e) := projectsLoop env prs
              (banner :: (o1 ++ o2 ++ o3 ++ o4) ++ rest, e)

/-- `main`: enumerate projects, report each, and print the terminal END
banner on normal completion. -/
def main' (env : Env) : List String × Option PyErr :=
  match get_projects env.projectPages with
  | .error e => ([], some e)
  | .ok projects =>
    match projectsLoop env projects with
    | (out, some e) => (out, some e)
    | (out, none) => (out ++ ["======================== END"], none)

/-- An SQL `ipAddresses` entry. -/
def mkSqlIp (s : String) : PyVal :=
  .dict [("ipAddress", .str s)]

/-- A well-formed SQL instance record with the fields `sqlRow` reads and
an arbitrary list of IP address entries. -/
def mkSqlItem (region zone name st ver tier avail : String) (ips : List String) : PyVal :=
  .dict [("region", .str region), ("gceZone", .str zone), ("name", .str name),
         ("state", .str st), ("databaseVersion", .str ver),
         ("settings", .dict [("tier", .str tier), ("availabilityType", .str avail)]),
         ("ipAddresses", .list (ips.map mkSqlIp))]

/-- A well-formed disk record with the fields `diskRow` reads. -/
def mkDisk (zone name status size : String) (users : List String) : PyVal :=
  .dict [("zone", .str zone), ("name", .str name), ("status", .str status),
         ("sizeGb", .str size), ("users", .list (users.map PyVal.str))]

/-- A well-formed address record with the fields `addrRow` reads. -/
def mkAddress (region name status addr tier ty : String) (users : List String) : PyVal :=
  .dict [("region", .str region), ("name", .str name), ("status", .str status),
         ("address", .str addr), ("networkTier", .str tier), ("addressType", .str ty),
         ("users", .list (users.map PyVal.str))]

/-- A well-formed API-key record (key id, display name, current key,
create time). -/
def mkKeyItem (k : String × String × String × String) : PyVal :=
  .dict [("keyId", .str k.1), ("displayName", .str k.2.1),
         ("currentKey", .str k.2.2.1), ("createTime", .str k.2.2.2)]

/-- The row `api_keys_report` prints for a well-formed key record. -/
def keyLine (k : String × String × String × String) : String :=
  String.intercalate "," [k.1, k.2.1, k.2.2.1, k.2.2.2]

/-- An API-key response body `{"keys": [...]}` of well-formed records. -/
def mkKeysBody (ks : List (String × String × String × String)) : PyVal :=
  .dict [("keys", .list (ks.map mkKeyItem))]

/-- A quiet environment: one project page with no projects, one zone page
and one region page with no entries, itemless listing responses, an empty
Memorystore listing and an empty API-key body. -/
def baseEnv : Env where
  projectPages := [.dict [("projects", .list [])]]
  zonePages := fun _ => [.dict [("items", .list [])]]
  regionPages := fun _ => [.dict [("items", .list [])]]
  instancesResult := fun _ _ => .dict []
  disksResult := fun _ _ => .dict []
  addressesResult := fun _ _ => .dict []
  sqlResult := fun _ => .dict [("items", .list [])]
  redisResult := fun _ => .ok []
  apiKeysBody := fun _ _ => .dict []
  token := "tok"

/-- The single instance of the end-to-end scenario: it lives in `zone-b`
and has no `accessConfigs`, hence no external IP. -/
def scenarioInstance : PyVal :=
  .dict [("zone", .str "https://gcp/projects/p/zones/zone-b"), ("name", .str "vm-1"),
         ("status", .str "RUNNING"),
         ("machineType", .str "https://gcp/projects/p/machineTypes/n1-standard-1"),
         ("networkInterfaces", .list [.dict [("networkIP", .str "10.0.0.2")]])]

/-- The end-to-end scenario environment: one project `proj-a`, two zones
(`zone-a` without instances, `zone-b` with `scenarioInstance`), zero
regions, no disks, an SQL listing with an empty `items` array, an empty
Memorystore listing, and an empty API-key body. -/
def scenarioEnv : Env where
  projectPages := [.dict [("projects", .list [.dict [("projectId", .str "proj-a")]])]]
  zonePages := fun _ =>
    [.dict [("items", .list [.dict [("name", .str "zone-a")], .dict [("name", .str "zone-b")]])]]
  regionPages := fun _ => [.dict [("items", .list [])]]
  instancesResult := fun _ z =>
    if z = "zone-b" then .dict [("items", .list [scenarioInstance])] else .dict []
  disksResult := fun _ _ => .dict []
  addressesResult := fun _ _ => .dict []
  sqlResult := fun _ => .dict [("items", .list [])]
  redisResult := fun _ => .ok []
  apiKeysBody := fun _ _ => .dict []
  token := "tok"

/-! ### Helper lemmas -/

theorem lexLe_iff : ∀ as bs : List Char, lexLe as bs = true ↔ ¬ List.Lex (· < ·) bs as
  | [], bs => by
    simp [lexLe]
  | a :: as, [] => by
    refine iff_of_false (by simp [lexLe]) (fun h => h List.Lex.nil)
  | a :: as, b :: bs => by
    rcases lt_trichotomy a b with hab | heq | hba
    · refine iff_of_true ?_ ?_
      · simp [lexLe, hab]
      · intro h
        cases h with
        | cons h => exact lt_irrefl a hab
        | rel h => exact lt_asymm hab h
    · subst heq
      have h1 : ¬ a < a := lt_irrefl a
      calc lexLe (a :: as) (a :: bs) = true
          ↔ lexLe as bs = true := by simp [lexLe, h1]
        _ ↔ ¬ List.Lex (· < ·) bs as := lexLe_iff as bs
        _ ↔ ¬ List.Lex (· < ·) (a :: bs) (a :: as) := (not_congr List.Lex.cons_iff).symm
    · refine iff_of_false ?_ (fun h => h (List.Lex.rel hba))
      simp [lexLe, hba, lt_asymm hba]

theorem strLe_iff (a b : String) : strLe a b = true ↔ a ≤ b := by
  rw [String.le_iff_toList_le]
  have h := lexLe_iff a.data b.data
  rw [strLe, h]
  constructor
  · intro hnl
    exact not_lt.mp hnl
  · intro hle
    exact not_lt.mpr hle

theorem mem_pyInsert (x a : String) : ∀ l : List String, x ∈ pyInsert a l ↔ x = a ∨ x ∈ l
  | [] => by simp [pyInsert]
  | b :: bs => by
    by_cases h : strLe a b
    · simp [pyInsert, h]
    · simp only [pyInsert, h, if_neg, Bool.false_eq_true, if_false, List.mem_cons,
        mem_pyInsert x a bs]
      tauto

theorem perm_pyInsert (a : String) : ∀ l : List String, (pyInsert a l).Perm (a :: l)
  | [] => by simp [pyInsert]
  | b :: bs => by
    by_cases h : strLe a b
    · simp [pyInsert, h]
    · simp only [pyInsert, h, Bool.false_eq_true, if_false]
      exact ((perm_pyInsert a bs).cons b).trans (List.Perm.swap a b bs)

theorem perm_pySort : ∀ l : List String, (pySort l).Perm l
  | [] => List.Perm.refl []
  | a :: as => ((perm_pyInsert a (pySort as)).trans ((perm_pySort as).cons a))

theorem sorted_pyInsert (a : String) :
    ∀ l : List String, l.Sorted (· ≤ ·) → (pyInsert a l).Sorted (· ≤ ·)
  | [], _ => List.sorted_singleton a
  | b :: bs, h => by
    rcases List.sorted_cons.mp h with ⟨hb, hbs⟩
    by_cases hab : strLe a b
    · have hab' : a ≤ b := (strLe_iff a b).mp hab
      simp only [pyInsert, hab, if_true]
      refine List.sorted_cons.mpr ⟨?_, h⟩
      intro x hx
      rcases List.mem_cons.mp hx with rfl | hx
      · exact hab'
      · exact le_trans hab' (hb x hx)
    · have hba : b ≤ a := by
        have := (strLe_iff a b).not.mp (by simpa using hab)
        exact le_of_not_le this
      simp only [pyInsert, hab, Bool.false_eq_true, if_false]
      refine List.sorted_cons.mpr ⟨?_, sorted_pyInsert a bs hbs⟩
      intro x hx
      rcases (mem_pyInsert x a bs).mp hx with rfl | hx
      · exact hba
      · exact hb x hx

theorem sorted_pySort : ∀ l : List String, (pySort l).Sorted (· ≤ ·)
  | [] => List.sorted_nil
  | a :: as => sorted_pyInsert a (pySort as) (sorted_pySort as)

theorem asStrList_map_str : ∀ us : List String, asStrList (us.map PyVal.str) = .ok us
  | [] => rfl
  | u :: us => by
    simp only [List.map_cons, asStrList, asStr, asStrList_map_str us]
    rfl

theorem rowLoop_keyRow : ∀ ks : List (String × String × String × String),
    rowLoop keyRow (ks.map mkKeyItem) = (ks.map keyLine, none)
  | [] => rfl
  | k :: ks => by
    have hk : keyRow (mkKeyItem k) = .ok (keyLine k) := rfl
    simp only [List.map_cons, rowLoop, hk, rowLoop_keyRow ks]

theorem get_projects_loop_eq (pages : List PyVal) (pss : List (List PyVal))
    (h : List.Forall₂ (fun r ps => responseProjects r = .ok ps) pages pss) :
    ∀ acc, get_projects_loop acc pages = .ok (acc ++ pss.flatten) := by
  induction h with
  | nil => intro acc; simp [get_projects_loop]
  | cons hr hrest ih =>
    intro acc
    rename_i r ps rs pss'
    simp only [get_projects_loop, hr]
    show get_projects_loop (acc ++ ps) rs = .ok (acc ++ (ps :: pss').flatten)
    rw [ih (acc ++ ps)]
    simp

/-! ### Claim theorems -/

/-- C1 (counterexample): the compute instance record
`{"networkInterfaces": []}` lacks the nested external-IP path
`networkInterfaces[0].accessConfigs[0].natIP`, yet `get_external_ip` does
not return the sentinel `"none"`: the `[0]` subscript on the empty array
raises an `IndexError`, which the `except KeyError` handler does not
catch, so the exception escapes. -/
theorem get_external_ip_empty_interfaces_raises :
    extPath (.dict [("networkInterfaces", .list [])]) = .error .indexError ∧
    get_external_ip (.dict [("networkInterfaces", .list [])]) = .error .indexError :=
  ⟨rfl, rfl⟩

/-- C1 (amended): `get_external_ip` returns the sentinel `"none"` (and
never raises) for every record whose nested external-IP path fails with a
missing dictionary key (`KeyError`), and returns the path's value when the
path is present; a failure of the path by an out-of-range list index
(empty `networkInterfaces` or `accessConfigs` array) instead propagates as
an uncaught `IndexError`. -/
theorem get_external_ip_spec (inst : PyVal) :
    (∀ k, extPath inst = .error (.keyError k) → get_external_ip inst = .ok (.str "none")) ∧
    (∀ v, extPath inst = .ok v → get_external_ip inst = .ok v) ∧
    (extPath inst = .error .indexError → get_external_ip inst = .error .indexError) := by
  refine ⟨fun k h => ?_, fun v h => ?_, fun h => ?_⟩ <;> simp [get_external_ip, h]

/-- C1 (witness): a record without the `networkInterfaces` key fails the
path with a `KeyError` and extraction yields `"none"`. -/
theorem get_external_ip_spec_witness :
    extPath (.dict []) = .error (.keyError "networkInterfaces") ∧
    get_external_ip (.dict []) = .ok (.str "none") :=
  ⟨rfl, (get_external_ip_spec (.dict [])).1 "networkInterfaces" rfl⟩

/-- C2: for a well-formed SQL instance record, when its `ipAddresses`
array has exactly two entries `sql_instance_report` prints one row whose
final two comma-separated fields are the two IP addresses in index order
(element 0 then element 1); when the array has fewer than two entries the
report raises an uncaught `IndexError` after printing only the banner. -/
theorem sql_instance_report_ip_entries (env : Env) (p : String)
    (region zone name st ver tier avail : String) (ips : List String)
    (h : env.sqlResult p =
      .dict [("items", .list [mkSqlItem region zone name st ver tier avail ips])]) :
    (∀ a b, ips = [a, b] →
      sql_instance_report env p =
        (["==== SQL Engine ====",
          String.intercalate "," [region, zone, name, st, ver, tier, avail, a, b]], none)) ∧
    (ips.length < 2 →
      sql_instance_report env p = (["==== SQL Engine ===="], some .indexError)) := by
  constructor
  · rintro a b rfl
    unfold sql_instance_report list_sql_instances itemsOrNone
    rw [h]
    rfl
  · intro hlen
    unfold sql_instance_report list_sql_instances itemsOrNone
    rw [h]
    rcases ips with _ | ⟨a, _ | ⟨b, rest⟩⟩
    · rfl
    · rfl
    · simp at hlen
      omega

/-- C2 (witness): a concrete SQL instance with two IP addresses is
printed with both addresses, primary first. -/
theorem sql_instance_report_ip_entries_witness :
    sql_instance_report
      { baseEnv with
        sqlResult := fun _ =>
          .dict [("items", .list
            [mkSqlItem "us-east1" "us-east1-b" "db-1" "RUNNABLE" "POSTGRES_12"
              "db-custom-1-3840" "ZONAL" ["10.1.0.5", "34.73.1.2"]])] } "proj-a" =
      (["==== SQL Engine ====",
        "us-east1,us-east1-b,db-1,RUNNABLE,POSTGRES_12,db-custom-1-3840,ZONAL,10.1.0.5,34.73.1.2"],
       none) := by
  have h := (sql_instance_report_ip_entries
    { baseEnv with
      sqlResult := fun _ =>
        .dict [("items", .list
          [mkSqlItem "us-east1" "us-east1-b" "db-1" "RUNNABLE" "POSTGRES_12"
            "db-custom-1-3840" "ZONAL" ["10.1.0.5", "34.73.1.2"]])] } "proj-a"
    "us-east1" "us-east1-b" "db-1" "RUNNABLE" "POSTGRES_12" "db-custom-1-3840" "ZONAL"
    ["10.1.0.5", "34.73.1.2"] rfl).1 "10.1.0.5" "34.73.1.2" rfl
  simpa using h

/-- C3: in the end-to-end scenario (one project, two zones of which one is
empty and one holds a single instance without an external IP, zero
regions), the run prints exactly the project banner, the Compute Engine
banner, the Instances banner, one resource row ending in `none`, the
Disks banner with no rows, the Addresses banner with no rows, the SQL,
Memorystore and API-key banners with no rows, and the terminal END
banner. -/
theorem main_scenario :
    main' scenarioEnv =
      (["======================== proj-a",
        "==== Compute Engine ====",
        "-- Instances --",
        "zone-b,vm-1,RUNNING,n1-standard-1,10.0.0.2,none",
        "-- Disks --",
        "-- Addresses --",
        "==== SQL Engine ====",
        "==== Memorystore ====",
        "==== API Keys ====",
        "======================== END"], none) :=
  rfl

/-- C4: whenever the Memorystore listing call raises any exception, the
bare `except:` in `list_redis_instances` swallows it and the reporter
prints only the `==== Memorystore ====` banner, completing normally (so
the run proceeds to the next reporter). -/
theorem redis_instance_report_swallows (env : Env) (p : String) (e : PyErr)
    (h : env.redisResult p = .error e) :
    redis_instance_report env p = (["==== Memorystore ===="], none) := by
  simp [redis_instance_report, list_redis_instances, h]

/-- C4 (witness): a permission-denied style exception in the listing
leaves only the banner. -/
theorem redis_instance_report_swallows_witness :
    redis_instance_report
      { baseEnv with redisResult := fun _ => .error .typeError } "proj-a" =
      (["==== Memorystore ===="], none) :=
  redis_instance_report_swallows
    { baseEnv with redisResult := fun _ => .error .typeError } "proj-a" .typeError rfl

/-- C5: if the API-key response body is a JSON object containing an
`"error"` key, `api_keys_report` prints only the banner (no key rows) and
completes without an exception; if the body is `{"keys": [...]}` with
well-formed key records (and hence no `"error"` key), every record is
printed as one row. -/
theorem api_keys_report_error_suppressed (env : Env) (tok p : String) :
    (∀ kvs, env.apiKeysBody tok p = .dict kvs → (lookupKey "error" kvs).isSome →
      api_keys_report env tok p = (["==== API Keys ===="], none)) ∧
    (∀ ks : List (String × String × String × String),
      env.apiKeysBody tok p = mkKeysBody ks →
      api_keys_report env tok p = ("==== API Keys ====" :: ks.map keyLine, none)) := by
  constructor
  · intro kvs h hk
    unfold api_keys_report
    rw [h]
    simp [pyContains, hk]
  · intro ks h
    unfold api_keys_report
    rw [h]
    simp only [mkKeysBody, pyContains, lookupKey, pyTruthy, dictGet]
    norm_num
    exact congrArg (fun rs => ("==== API Keys ====" :: rs.1, rs.2)) (rowLoop_keyRow ks)

/-- C5 (witness): a body with one well-formed key record prints exactly
that record's row; a body carrying an `"error"` key prints nothing. -/
theorem api_keys_report_error_suppressed_witness :
    (api_keys_report
      { baseEnv with apiKeysBody := fun _ _ => mkKeysBody [("id-1", "key one", "AIza-1", "2020-05-01")] }
      "tok" "proj-a" =
      (["==== API Keys ====", "id-1,key one,AIza-1,2020-05-01"], none)) ∧
    (api_keys_report
      { baseEnv with apiKeysBody := fun _ _ => .dict [("error", .dict [("code", .int 403)])] }
      "tok" "proj-a" =
      (["==== API Keys ===="], none)) := by
  constructor
  · have h := (api_keys_report_error_suppressed
      { baseEnv with apiKeysBody := fun _ _ => mkKeysBody [("id-1", "key one", "AIza-1", "2020-05-01")] }
      "tok" "proj-a").2 [("id-1", "key one", "AIza-1", "2020-05-01")] rfl
    simpa using h
  · exact (api_keys_report_error_suppressed
      { baseEnv with apiKeysBody := fun _ _ => .dict [("error", .dict [("code", .int 403)])] }
      "tok" "proj-a").1 [("error", .dict [("code", .int 403)])] rfl rfl

/-- C6: whatever the ordering of names across the response pages, zone and
region enumeration return the complete collection of names (a permutation
of the concatenation of all pages' name lists) sorted lexicographically
ascending. -/
theorem get_zones_regions_sorted (env : Env) (p : String) (zns rns : List String)
    (hz : collectNames (env.zonePages p) = .ok zns)
    (hr : collectNames (env.regionPages p) = .ok rns) :
    ∃ zs rs, get_zones env p = .ok zs ∧ zs.Perm zns ∧ zs.Sorted (· ≤ ·) ∧
      get_regions env p = .ok rs ∧ rs.Perm rns ∧ rs.Sorted (· ≤ ·) := by
  refine ⟨pySort zns, pySort rns, ?_, perm_pySort zns, sorted_pySort zns, ?_,
    perm_pySort rns, sorted_pySort rns⟩
  · rw [get_zones, hz]
    rfl
  · rw [get_regions, hr]
    rfl

/-- C6 (witness): unsorted pages of zone and region names are returned
sorted and complete. -/
theorem get_zones_regions_sorted_witness :
    collectNames ((({ baseEnv with
        zonePages := fun _ =>
          [.dict [("items", .list [.dict [("name", .str "us-east1-c")],
                                   .dict [("name", .str "us-east1-b")]])]],
        regionPages := fun _ =>
          [.dict [("items", .list [.dict [("name", .str "europe-west1")],
                                   .dict [("name", .str "asia-east1")]])]] } : Env)).zonePages
      "proj-a") = .ok ["us-east1-c", "us-east1-b"] ∧
    (∃ zs rs,
      get_zones { baseEnv with
        zonePages := fun _ =>
          [.dict [("items", .list [.dict [("name", .str "us-east1-c")],
                                   .dict [("name", .str "us-east1-b")]])]],
        regionPages := fun _ =>
          [.dict [("items", .list [.dict [("name", .str "europe-west1")],
                                   .dict [("name", .str "asia-east1")]])]] } "proj-a" = .ok zs ∧
      zs.Perm ["us-east1-c", "us-east1-b"] ∧ zs.Sorted (· ≤ ·) ∧
      get_regions { baseEnv with
        zonePages := fun _ =>
          [.dict [("items", .list [.dict [("name", .str "us-east1-c")],
                                   .dict [("name", .str "us-east1-b")]])]],
        regionPages := fun _ =>
          [.dict [("items", .list [.dict [("name", .str "europe-west1")],
                                   .dict [("name", .str "asia-east1")]])]] } "proj-a" = .ok rs ∧
      rs.Perm ["europe-west1", "asia-east1"] ∧ rs.Sorted (· ≤ ·)) :=
  ⟨rfl, get_zones_regions_sorted _ "proj-a" ["us-east1-c", "us-east1-b"]
    ["europe-west1", "asia-east1"] rfl rfl⟩

/-- C7: when zone enumeration and region enumeration both yield no names,
the compute reporter prints exactly its four section banners and no
resource rows, completing normally. -/
theorem compute_instance_report_no_zones (env : Env) (p : String)
    (hz : get_zones env p = .ok []) (hr : get_regions env p = .ok []) :
    compute_instance_report env p =
      (["==== Compute Engine ====", "-- Instances --", "-- Disks --", "-- Addresses --"],
       none) := by
  unfold compute_instance_report
  rw [hz, hr]
  rfl

/-- C7 (witness): an environment whose zone and region pages are empty
produces only the four banners. -/
theorem compute_instance_report_no_zones_witness :
    get_zones baseEnv "proj-a" = .ok [] ∧
    compute_instance_report baseEnv "proj-a" =
      (["==== Compute Engine ====", "-- Instances --", "-- Disks --", "-- Addresses --"],
       none) :=
  ⟨rfl, compute_instance_report_no_zones baseEnv "proj-a" rfl rfl⟩

/-- C8: `get_projects` pages until the cursor is exhausted and returns the
in-order concatenation of every page's `projects` list, unfiltered. -/
theorem get_projects_concat (pages : List PyVal) (pss : List (List PyVal))
    (h : List.Forall₂ (fun r ps => responseProjects r = .ok ps) pages pss) :
    get_projects pages = .ok pss.flatten := by
  have h' := get_projects_loop_eq pages pss h []
  simpa [get_projects] using h'

/-- C8 (witness): three pages (the middle one without a `projects` entry)
concatenate in order. -/
theorem get_projects_concat_witness :
    get_projects [.dict [("projects", .list [.str "p1", .str "p2"])], .dict [],
                  .dict [("projects", .list [.str "p3"])]] =
      .ok [.str "p1", .str "p2", .str "p3"] := by
  have h := get_projects_concat
    [.dict [("projects", .list [.str "p1", .str "p2"])], .dict [],
     .dict [("projects", .list [.str "p3"])]]
    [[.str "p1", .str "p2"], [], [.str "p3"]]
    (List.Forall₂.cons rfl (List.Forall₂.cons rfl (List.Forall₂.cons rfl List.Forall₂.nil)))
  simpa using h

/-- C9: for a disk or address record with a non-empty users list, the
printed users field is the final `/`-separated segment of the string
obtained by joining all user references with `|` — so all segments of
earlier users are lost to the trailing `split('/')[-1]`. -/
theorem users_field_lossy_join (zone name status size region addr tier ty : String)
    (us : List String) (hne : us ≠ []) :
    diskRow (mkDisk zone name status size us) =
      .ok (String.intercalate "," [lastSeg zone, name, status, size,
        lastSeg (String.intercalate "|" us)]) ∧
    addrRow (mkAddress region name status addr tier ty us) =
      .ok (String.intercalate "," [lastSeg region, name, status, addr, tier, ty,
        lastSeg (String.intercalate "|" us)]) := by
  have hj : joinUsers (.list (us.map PyVal.str)) = .ok (String.intercalate "|" us) := by
    simp [joinUsers, asStrList_map_str]
  constructor
  · show (joinUsers (.list (us.map PyVal.str)) >>= fun u =>
      Except.ok (String.intercalate "," [lastSeg zone, name, status, size, lastSeg u])) = _
    rw [hj]
    rfl
  · show (joinUsers (.list (us.map PyVal.str)) >>= fun u =>
      Except.ok (String.intercalate "," [lastSeg region, name, status, addr, tier, ty,
        lastSeg u])) = _
    rw [hj]
    rfl

/-- C9 (witness): with two users the printed field merges the tail of the
last user with whatever follows the last `/` of the joined string, here
`inst-2` (all of `inst-1`'s segments are discarded). -/
theorem users_field_lossy_join_witness :
    ["projects/p/instances/inst-1", "projects/p/instances/inst-2"] ≠ ([] : List String) ∧
    diskRow (mkDisk "zones/zone-a" "disk-1" "READY" "100"
      ["projects/p/instances/inst-1", "projects/p/instances/inst-2"]) =
      .ok "zone-a,disk-1,READY,100,inst-2" := by
  refine ⟨by simp, ?_⟩
  have h := (users_field_lossy_join "zones/zone-a" "disk-1" "READY" "100" "r" "a" "t" "ty"
    ["projects/p/instances/inst-1", "projects/p/instances/inst-2"] (by simp)).1
  simpa using h

/-- C10: when the SQL listing response has no `items` key,
`list_sql_instances` returns `None`, and `sql_instance_report` then
iterates over `None`: it prints the banner and raises an uncaught
`TypeError` — while the compute reporter's guarded `if items:` treats the
same `None` as nothing to print. -/
theorem sql_missing_items_fatal (env : Env) (p : String) (kvs : List (String × PyVal))
    (h : env.sqlResult p = .dict kvs) (hk : lookupKey "items" kvs = none) :
    list_sql_instances env p = .ok none ∧
    sql_instance_report env p = (["==== SQL Engine ===="], some .typeError) ∧
    forItems instanceRow none = ([], none) := by
  have h1 : list_sql_instances env p = .ok none := by
    unfold list_sql_instances itemsOrNone
    rw [h]
    simp only [pyContains, hk, Option.isSome_none]
    rfl
  refine ⟨h1, ?_, rfl⟩
  unfold sql_instance_report
  rw [h1]

/-- C10 (witness): an empty-object SQL response crashes the SQL reporter
after its banner. -/
theorem sql_missing_items_fatal_witness :
    list_sql_instances { baseEnv with sqlResult := fun _ => .dict [] } "proj-a" = .ok none ∧
    sql_instance_report { baseEnv with sqlResult := fun _ => .dict [] } "proj-a" =
      (["==== SQL Engine ===="], some .typeError) ∧
    forItems instanceRow none = ([], none) :=
  sql_missing_items_fatal { baseEnv with sqlResult := fun _ => .dict [] } "proj-a" [] rfl rfl
